import Mathlib

/-!
# rutas-rd-saas frontend: map projection, batch form, optimization-status hook

Shallow embedding of three source files:

* `src/frontend/src/components/UI/InteractiveMap.js`
* `src/frontend/src/components/Deliveries/BatchForm.js`
* `src/frontend/src/hooks/useOptimizationStatus.js`

JavaScript exceptions are `Except.error`, `undefined` / `null` are `Option.none`,
side effects (network calls, callbacks, state setters) are recorded in explicit
traces.  Numbers are only carried through the code, never computed on, so a
coordinate component is an `Int` (degrees scaled by 10^4).
-/

namespace RutasRD

/-! ## InteractiveMap.js -/

/-- The `{lat, lng}` object of a delivery. -/
structure Coordinates where
  lat : Int
  lng : Int
  deriving DecidableEq, Repr

/-- The weak customer reference of a delivery; only `name` is read. -/
structure Customer where
  name : String
  deriving DecidableEq, Repr

/-- A delivery as read by `InteractiveMap`: `coordinates` and `customer` may be
`undefined`. -/
structure Delivery where
  address : String
  coordinates : Option Coordinates
  customer : Option Customer
  deriving DecidableEq, Repr

/-- A `[lat, lng]` array. -/
abbrev LatLng := Int × Int

/-- Value of the `center` prop: the `coordinates` object of the first delivery,
or the literal array `[18.4861, -69.9312]`. -/
inductive Center where
  | object (c : Coordinates)
  | array (p : LatLng)
  deriving DecidableEq, Repr

/-- The `<Marker key={i} position={[..]}>` element with its `<Popup>` children.
A child that is `undefined` is `none`; React renders nothing for it. -/
structure Marker where
  key : Nat
  position : LatLng
  popupChildren : List (Option String)
  deriving DecidableEq, Repr

/-- The `<Polyline positions={routeGeometry} color="blue" weight={5} />` element. -/
structure Polyline where
  positions : List LatLng
  color : String
  weight : Nat
  deriving DecidableEq, Repr

/-- The element tree returned by `InteractiveMap` (the constant `TileLayer` and
class names are left out). -/
structure MapView where
  center : Center
  zoom : Nat
  markers : List Marker
  polyline : Option Polyline
  deriving DecidableEq, Repr

/-- The exception a JavaScript run can throw here. -/
inductive JsError where
  | typeError (msg : String)
  deriving DecidableEq, Repr

/-- Line 14: `deliveries[0]?.coordinates || [18.4861, -69.9312]`. -/
def depot (deliveries : List Delivery) : Center :=
  match deliveries.head? with
  | some d =>
    match d.coordinates with
    | some c => Center.object c
    | none => Center.array (184861, -699312)
  | none => Center.array (184861, -699312)

/-- Lines 23-27, the callback of `deliveries.map`: reading `d.coordinates.lat`
throws a `TypeError` when `d.coordinates` is `undefined`. -/
def markerOf (d : Delivery) (i : Nat) : Except JsError Marker :=
  match d.coordinates with
  | none => Except.error (JsError.typeError "Cannot read properties of undefined (reading 'lat')")
  | some c =>
    Except.ok
      { key := i
        position := (c.lat, c.lng)
        popupChildren := [d.customer.map Customer.name, some " - ", some d.address] }

/-- Line 22: `deliveries.map((d, i) => ...)`, left to right from index `i`; the
first throwing callback aborts the whole map. -/
def mapMarkers : List Delivery → Nat → Except JsError (List Marker)
  | [], _ => Except.ok []
  | d :: rest, i =>
    match markerOf d i with
    | Except.error e => Except.error e
    | Except.ok m =>
      match mapMarkers rest (i + 1) with
      | Except.error e => Except.error e
      | Except.ok ms => Except.ok (m :: ms)

/-- Lines 29-35: `routeGeometry && (<Polyline ... />)`.  An array, also the
empty one, is truthy; `null` is not. -/
def polylineOf (routeGeometry : Option (List LatLng)) : Option Polyline :=
  match routeGeometry with
  | none => none
  | some g => some { positions := g, color := "blue", weight := 5 }

/-- `InteractiveMap({ deliveries = [], routeGeometry = null })`: the children
are evaluated in source order, so a throw in the marker map leaves no element
at all. -/
def InteractiveMap (deliveries : List Delivery) (routeGeometry : Option (List LatLng)) :
    Except JsError MapView :=
  let center := depot deliveries
  match mapMarkers deliveries 0 with
  | Except.error e => Except.error e
  | Except.ok ms =>
    Except.ok { center := center, zoom := 13, markers := ms, polyline := polylineOf routeGeometry }

/-- Text shown by a popup: the children in order, `undefined` contributing
nothing. -/
def popupText (m : Marker) : String :=
  String.join (m.popupChildren.filterMap id)

/-! ## BatchForm.js -/

/-- One entry of the `deliveries` state: `{ address, phone }`. -/
structure DeliveryRequest where
  address : String
  phone : String
  deriving DecidableEq, Repr

/-- The four `useState` cells of `BatchForm`. -/
structure FormState where
  name : String
  deliveryDate : String
  depotAddress : String
  deliveries : List DeliveryRequest
  deriving DecidableEq, Repr

/-- Initial values of the four `useState` cells (lines 5-8). -/
def initialForm : FormState :=
  { name := "", deliveryDate := "", depotAddress := "", deliveries := [{ address := "", phone := "" }] }

/-- An element of the `deliveries` array of the request body. -/
structure BodyDelivery where
  address : String
  phone : String
  deriving DecidableEq, Repr

/-- The object literal passed to `api.post` (lines 13-21). -/
structure PostBody where
  name : String
  delivery_date : String
  depot_address : String
  deliveries : List BodyDelivery
  deriving DecidableEq, Repr

/-- The batch resource the server answers with (`response.data`). -/
structure BatchResource where
  id : String
  status : String
  deriving DecidableEq, Repr

/-- The resolved value of `api.post`. -/
structure Response where
  data : BatchResource
  deriving DecidableEq, Repr

/-- What one run of the submit handler does to the outside world, in order. -/
inductive Effect where
  | preventDefault
  | post (url : String) (body : PostBody)
  | onSuccess (data : BatchResource)
  | consoleError (label : String) (error : String)
  deriving DecidableEq, Repr

/-- A finished run: the effects performed, and how the promise returned by the
async handler settles (`none`: fulfilled, `some e`: rejected with `e`). -/
structure SubmitRun where
  effects : List Effect
  rejected : Option String
  deriving DecidableEq, Repr

/-- Lines 17-20: `deliveries.map(d => ({ address: d.address, phone: d.phone }))`. -/
def bodyDeliveries (deliveries : List DeliveryRequest) : List BodyDelivery :=
  deliveries.map (fun d => { address := d.address, phone := d.phone })

/-- Lines 13-21: the request body built from the state. -/
def requestBody (s : FormState) : PostBody :=
  { name := s.name
    delivery_date := s.deliveryDate
    depot_address := s.depotAddress
    deliveries := bodyDeliveries s.deliveries }

/-- Lines 10-26, `handleSubmit`.  `apiPost` is the client of `../../api/client`
(an error is a rejected promise), `onSuccess` the prop (an error is a
synchronous throw, caught by the same `try`). -/
def handleSubmit (s : FormState) (apiPost : String → PostBody → Except String Response)
    (onSuccess : BatchResource → Except String Unit) : SubmitRun :=
  let body := requestBody s
  let sent := [Effect.preventDefault, Effect.post "/delivery-batches/" body]
  match apiPost "/delivery-batches/" body with
  | Except.error err =>
    { effects := sent ++ [Effect.consoleError "Error creando lote:" err], rejected := none }
  | Except.ok response =>
    match onSuccess response.data with
    | Except.ok _ => { effects := sent ++ [Effect.onSuccess response.data], rejected := none }
    | Except.error err =>
      { effects := sent ++ [Effect.onSuccess response.data, Effect.consoleError "Error creando lote:" err]
        rejected := none }

/-- The `required` attribute on the name, date and depot controls (lines 37, 44,
51): a control whose value is empty fails the check.  The delivery inputs
(lines 55-80) carry no such attribute. -/
def requiredFilled (s : FormState) : Bool :=
  s.name != "" && s.deliveryDate != "" && s.depotAddress != ""

/-- Pressing the submit button of `<form onSubmit={handleSubmit}>`: the submit
event, and with it `handleSubmit`, fires only when every `required` control is
filled. -/
def formSubmit (s : FormState) (apiPost : String → PostBody → Except String Response)
    (onSuccess : BatchResource → Except String Unit) : SubmitRun :=
  if requiredFilled s then handleSubmit s apiPost onSuccess
  else { effects := [], rejected := none }

/-- The network writes among the effects of a run. -/
def networkWrites : List Effect → List (String × PostBody)
  | [] => []
  | Effect.post url body :: rest => (url, body) :: networkWrites rest
  | _ :: rest => networkWrites rest

/-- The values handed to the `onSuccess` prop during a run. -/
def successCalls : List Effect → List BatchResource
  | [] => []
  | Effect.onSuccess data :: rest => data :: successCalls rest
  | _ :: rest => successCalls rest

/-- A draft that meets every precondition of the submission contract: name,
date and depot address non-empty, at least one delivery, every delivery address
non-empty. -/
def validDraft (s : FormState) : Prop :=
  s.name ≠ "" ∧ s.deliveryDate ≠ "" ∧ s.depotAddress ≠ "" ∧ s.deliveries ≠ [] ∧
    ∀ d ∈ s.deliveries, d.address ≠ ""

/-! ## useOptimizationStatus.js -/

/-- The two `useState` cells of the hook, which it returns as `{ status, loading }`. -/
structure HookState where
  status : String
  loading : Bool
  deriving DecidableEq, Repr

/-- A call of one of the two state setters. -/
inductive SetterCall where
  | setStatus (value : String)
  | setLoading (value : Bool)
  deriving DecidableEq, Repr

/-- Where an observation stands. `registered`: the interval of line 21 is
registered. `cleared`: the cleanup of line 22 has run and the component is
still mounted (the effect was re-run for another `batchId`). `unmounted`: the
cleanup has run and React has removed the component, so it ignores every later
setter call. -/
inductive Phase where
  | registered
  | cleared
  | unmounted
  deriving DecidableEq, Repr

/-- One observation: the hook state together with what the effect of lines 8-23
owns. `state` holds the two cells as React keeps them, `inFlight` counts
`api.get` promises not yet settled, `fetches` lists the URLs requested so far
and `calls` the setter calls made so far, applied by React or not. -/
structure Observation where
  batchId : String
  interval : Nat
  state : HookState
  phase : Phase
  inFlight : Nat
  fetches : List String
  calls : List SetterCall
  deriving DecidableEq, Repr

/-- The interval of line 21 is registered and not cleared. -/
def Observation.timerActive (o : Observation) : Bool :=
  match o.phase with
  | Phase.registered => true
  | Phase.cleared => false
  | Phase.unmounted => false

/-- What React makes of setter calls that would leave the cells at `next`: a
mounted component takes the new values, an unmounted one keeps what it had. -/
def applySetters (o : Observation) (next : HookState) : HookState :=
  match o.phase with
  | Phase.registered => next
  | Phase.cleared => next
  | Phase.unmounted => o.state

/-- Line 11: the template literal of the request URL. -/
def statusUrl (batchId : String) : String :=
  "/delivery-batches/" ++ batchId ++ "/"

/-- Lines 5-6 and 21: the first render and its effect; the state starts at
`'optimizing'` / `true`, the interval is registered, nothing is fetched yet. -/
def useOptimizationStatus (batchId : String) (interval : Nat) : Observation :=
  { batchId := batchId
    interval := interval
    state := { status := "optimizing", loading := true }
    phase := Phase.registered
    inFlight := 0
    fetches := []
    calls := [] }

/-- Line 11, `poll` up to its `await`: the request is issued unconditionally. -/
def pollRequest (o : Observation) : Observation :=
  { o with inFlight := o.inFlight + 1, fetches := o.fetches ++ [statusUrl o.batchId] }

/-- The two ways the awaited `api.get` settles; a fulfilled one carries
`response.data.status`, a rejected one sends `poll` to its `catch`. -/
inductive FetchResult where
  | fulfilled (status : String)
  | rejected
  deriving DecidableEq, Repr

/-- Lines 12-18, `poll` after its `await`. The code calls the setters with no
check of any kind; whether the cells change is up to React. -/
def pollResume (o : Observation) (r : FetchResult) : Observation :=
  match r with
  | FetchResult.fulfilled status =>
    if status = "ready" ∨ status = "failed" then
      { o with
        inFlight := o.inFlight - 1
        state := applySetters o { status := status, loading := false }
        calls := o.calls ++ [SetterCall.setStatus status, SetterCall.setLoading false] }
    else
      { o with
        inFlight := o.inFlight - 1
        state := applySetters o { o.state with status := status }
        calls := o.calls ++ [SetterCall.setStatus status] }
  | FetchResult.rejected =>
    { o with
      inFlight := o.inFlight - 1
      state := applySetters o { o.state with loading := false }
      calls := o.calls ++ [SetterCall.setLoading false] }

/-- Line 22, the cleanup returned by the effect: `clearInterval(id)` and nothing
else. -/
def cleanup (o : Observation) : Observation :=
  match o.phase with
  | Phase.registered => { o with phase := Phase.cleared }
  | Phase.cleared => o
  | Phase.unmounted => o

/-- React removes the component. It runs the cleanup first, so this happens to
an observation whose interval is cleared. -/
def unmount (o : Observation) : Observation :=
  match o.phase with
  | Phase.registered => o
  | Phase.cleared => { o with phase := Phase.unmounted }
  | Phase.unmounted => o

/-- What can happen to an observation: the interval fires, an outstanding
request settles, the cleanup runs, or the component is removed (after its
cleanup). -/
inductive Event where
  | tick
  | settle (r : FetchResult)
  | cleanup
  | unmount
  deriving DecidableEq, Repr

/-- One event. The interval fires only while registered, only an outstanding
request can settle, and the component is removed only after the cleanup; an
event that cannot occur leaves the observation as it is. -/
def step (o : Observation) (e : Event) : Observation :=
  match e with
  | Event.tick => if o.timerActive then pollRequest o else o
  | Event.settle r => if 0 < o.inFlight then pollResume o r else o
  | Event.cleanup => cleanup o
  | Event.unmount => unmount o

/-- A schedule of events, run from left to right. -/
def run (o : Observation) (events : List Event) : Observation :=
  events.foldl step o

/-! ## Theorems -/

/-! ### InteractiveMap -/

/-- A delivery without coordinates makes the marker map throw, whatever comes
before or after it. -/
lemma mapMarkers_error_of_missing (ds : List Delivery) :
    ∀ i : Nat, (∃ d ∈ ds, d.coordinates = none) → ∃ e, mapMarkers ds i = Except.error e := by
  induction ds with
  | nil => intro i h; simp at h
  | cons d rest ih =>
    intro i h
    cases hc : d.coordinates with
    | none => simp [mapMarkers, markerOf, hc]
    | some c =>
      have hrest : ∃ x ∈ rest, x.coordinates = none := by
        obtain ⟨x, hx, hxc⟩ := h
        rcases List.mem_cons.mp hx with rfl | hmem
        · rw [hc] at hxc; cases hxc
        · exact ⟨x, hmem, hxc⟩
      obtain ⟨e, he⟩ := ih (i + 1) hrest
      exact ⟨e, by simp [mapMarkers, markerOf, hc, he]⟩

/-- When the marker map returns, it returned one marker per delivery, in order,
each with the popup children of its delivery. -/
lemma mapMarkers_popups (ds : List Delivery) :
    ∀ (i : Nat) (ms : List Marker), mapMarkers ds i = Except.ok ms →
      ms.map Marker.popupChildren =
        ds.map (fun d => [d.customer.map Customer.name, some " - ", some d.address]) := by
  induction ds with
  | nil => intro i ms h; simp [mapMarkers] at h; subst h; rfl
  | cons d rest ih =>
    intro i ms h
    cases hc : d.coordinates with
    | none => simp [mapMarkers, markerOf, hc] at h
    | some c =>
      cases hr : mapMarkers rest (i + 1) with
      | error e => simp [mapMarkers, markerOf, hc, hr] at h
      | ok tail =>
        simp [mapMarkers, markerOf, hc, hr] at h
        subst h
        simp [ih (i + 1) tail hr]

/-- C3: a delivery list that holds a delivery without coordinates makes
`InteractiveMap` throw: no marker list is produced at all, where the claim
promises the markers of the remaining deliveries. -/
theorem InteractiveMap_throws_on_missing_coordinates (ds : List Delivery)
    (g : Option (List LatLng)) (h : ∃ d ∈ ds, d.coordinates = none) :
    ∃ e, InteractiveMap ds g = Except.error e := by
  obtain ⟨e, he⟩ := mapMarkers_error_of_missing ds 0 h
  exact ⟨e, by simp [InteractiveMap, he]⟩

/-- C3, at three deliveries of which the second has no coordinates: the render
throws instead of giving two markers. -/
theorem InteractiveMap_throws_on_missing_coordinates_witness :
    (∃ d ∈ [(⟨"Calle 1", some ⟨185000, -699000⟩, none⟩ : Delivery), ⟨"Calle 2", none, none⟩,
        ⟨"Calle 3", some ⟨184900, -699100⟩, none⟩], d.coordinates = none) ∧
    ∃ e, InteractiveMap [⟨"Calle 1", some ⟨185000, -699000⟩, none⟩, ⟨"Calle 2", none, none⟩,
        ⟨"Calle 3", some ⟨184900, -699100⟩, none⟩] (some [(184800, -699300), (185000, -699000)])
      = Except.error e :=
  ⟨⟨⟨"Calle 2", none, none⟩, by simp, rfl⟩,
   InteractiveMap_throws_on_missing_coordinates _ _ ⟨⟨"Calle 2", none, none⟩, by simp, rfl⟩⟩

/-- C8: with a route geometry present and one delivery without coordinates the
render throws, so no polyline is produced, where the claim promises the
polyline whatever the delivery list. -/
theorem InteractiveMap_no_polyline_on_missing_coordinates :
    InteractiveMap [⟨"Calle 1", none, none⟩] (some [(184800, -699300), (185000, -699000)])
      = Except.error (JsError.typeError "Cannot read properties of undefined (reading 'lat')") := by
  rfl

/-- Whenever the render returns, its polyline is the route geometry itself, and
there is none for `null`. -/
lemma InteractiveMap_polyline (ds : List Delivery) (g : Option (List LatLng)) (view : MapView)
    (h : InteractiveMap ds g = Except.ok view) :
    view.polyline = g.map (fun pts => { positions := pts, color := "blue", weight := 5 }) := by
  unfold InteractiveMap at h
  cases hm : mapMarkers ds 0 with
  | error e => simp [hm] at h
  | ok ms =>
    simp [hm] at h
    subst h
    cases g <;> rfl

/-- C10, as the claim states it, fails: a delivery without customer is labelled
with the separator followed by the address, not with the address alone. -/
theorem label_without_customer_keeps_separator :
    InteractiveMap [⟨"Calle 1", some ⟨185000, -699000⟩, none⟩] none
      = Except.ok
          { center := Center.object ⟨185000, -699000⟩
            zoom := 13
            markers := [⟨0, (185000, -699000), [none, some " - ", some "Calle 1"]⟩]
            polyline := none } ∧
    popupText ⟨0, (185000, -699000), [none, some " - ", some "Calle 1"]⟩ = " - Calle 1" ∧
    popupText ⟨0, (185000, -699000), [none, some " - ", some "Calle 1"]⟩ ≠ "Calle 1" := by
  refine ⟨rfl, by decide, by decide⟩

/-- C10, amended: every rendered marker is labelled `customer.name`, the
separator `" - "` and the address when the delivery has a customer, and the
separator followed by the address when it has none. -/
theorem marker_labels (ds : List Delivery) (g : Option (List LatLng)) (view : MapView)
    (h : InteractiveMap ds g = Except.ok view) :
    view.markers.map popupText =
      ds.map (fun d =>
        match d.customer with
        | some c => c.name ++ " - " ++ d.address
        | none => " - " ++ d.address) := by
  unfold InteractiveMap at h
  cases hm : mapMarkers ds 0 with
  | error e => simp [hm] at h
  | ok ms =>
    simp [hm] at h
    subst h
    have hp := mapMarkers_popups ds 0 ms hm
    have hfun : popupText = (fun cs => String.join (cs.filterMap id)) ∘ Marker.popupChildren := rfl
    simp only [hfun, ← List.map_map, hp]
    simp only [List.map_map]
    apply List.map_congr_left
    intro d _
    cases hcu : d.customer <;> simp [String.join, hcu]

/-- C10, amended, at one delivery with a customer and one without. -/
theorem marker_labels_witness :
    InteractiveMap [⟨"Calle 1", some ⟨185000, -699000⟩, some ⟨"Ana"⟩⟩,
        ⟨"Calle 2", some ⟨184900, -699100⟩, none⟩] none
      = Except.ok
          { center := Center.object ⟨185000, -699000⟩
            zoom := 13
            markers := [⟨0, (185000, -699000), [some "Ana", some " - ", some "Calle 1"]⟩,
              ⟨1, (184900, -699100), [none, some " - ", some "Calle 2"]⟩]
            polyline := none } ∧
    List.map popupText [⟨0, (185000, -699000), [some "Ana", some " - ", some "Calle 1"]⟩,
        ⟨1, (184900, -699100), [none, some " - ", some "Calle 2"]⟩]
      = List.map (fun d : Delivery =>
          match d.customer with
          | some c => c.name ++ " - " ++ d.address
          | none => " - " ++ d.address)
        [⟨"Calle 1", some ⟨185000, -699000⟩, some ⟨"Ana"⟩⟩,
          ⟨"Calle 2", some ⟨184900, -699100⟩, none⟩] :=
  ⟨rfl, marker_labels
    [⟨"Calle 1", some ⟨185000, -699000⟩, some ⟨"Ana"⟩⟩, ⟨"Calle 2", some ⟨184900, -699100⟩, none⟩]
    none
    { center := Center.object ⟨185000, -699000⟩
      zoom := 13
      markers := [⟨0, (185000, -699000), [some "Ana", some " - ", some "Calle 1"]⟩,
        ⟨1, (184900, -699100), [none, some " - ", some "Calle 2"]⟩]
      polyline := none }
    rfl⟩

/-! ### BatchForm -/

/-- The handler posts once and never rejects, whatever the state and whatever
the client and the callback do. -/
lemma handleSubmit_writes (s : FormState) (apiPost : String → PostBody → Except String Response)
    (onSuccess : BatchResource → Except String Unit) :
    networkWrites (handleSubmit s apiPost onSuccess).effects
        = [("/delivery-batches/", requestBody s)] ∧
      (handleSubmit s apiPost onSuccess).rejected = none := by
  cases hp : apiPost "/delivery-batches/" (requestBody s) with
  | error err => simp [handleSubmit, hp, networkWrites]
  | ok response =>
    cases hs : onSuccess response.data <;> simp [handleSubmit, hp, hs, networkWrites]

/-- C1, as the claim states it, fails: a draft whose only delivery has an empty
address is posted, through the form as well as by the handler alone, and the
handler posts even the all-empty initial draft; nothing is rejected. -/
theorem invalid_draft_is_posted :
    networkWrites
        (formSubmit ⟨"Ruta AM", "2024-05-01", "Av. X", [⟨"", ""⟩]⟩
          (fun _ _ => Except.ok ⟨⟨"b1", "optimizing"⟩⟩) (fun _ => Except.ok ())).effects
      = [("/delivery-batches/", ⟨"Ruta AM", "2024-05-01", "Av. X", [⟨"", ""⟩]⟩)] ∧
    (formSubmit ⟨"Ruta AM", "2024-05-01", "Av. X", [⟨"", ""⟩]⟩
        (fun _ _ => Except.ok ⟨⟨"b1", "optimizing"⟩⟩) (fun _ => Except.ok ())).rejected = none ∧
    networkWrites
        (handleSubmit initialForm
          (fun _ _ => Except.ok ⟨⟨"b1", "optimizing"⟩⟩) (fun _ => Except.ok ())).effects
      = [("/delivery-batches/", ⟨"", "", "", [⟨"", ""⟩]⟩)] ∧
    (handleSubmit initialForm
        (fun _ _ => Except.ok ⟨⟨"b1", "optimizing"⟩⟩) (fun _ => Except.ok ())).rejected = none := by
  refine ⟨by decide, by decide, by decide, by decide⟩

/-- C1, amended: a draft with an empty name, date or depot address never
reaches the handler when the form is submitted: the run has no effect at all,
so no network write and no `onSuccess` call, and nothing is raised. -/
theorem formSubmit_blocks_missing_required (s : FormState)
    (apiPost : String → PostBody → Except String Response)
    (onSuccess : BatchResource → Except String Unit)
    (h : s.name = "" ∨ s.deliveryDate = "" ∨ s.depotAddress = "") :
    formSubmit s apiPost onSuccess = { effects := [], rejected := none } ∧
      networkWrites (formSubmit s apiPost onSuccess).effects = [] ∧
      successCalls (formSubmit s apiPost onSuccess).effects = [] := by
  have hreq : requiredFilled s = false := by
    unfold requiredFilled
    rcases h with h | h | h <;> simp [h]
  simp [formSubmit, hreq, networkWrites, successCalls]

/-- C1, amended, at a draft whose date is missing. -/
theorem formSubmit_blocks_missing_required_witness :
    (("Ruta AM" : String) = "" ∨ ("" : String) = "" ∨ ("Av. X" : String) = "") ∧
    formSubmit ⟨"Ruta AM", "", "Av. X", [⟨"Calle 1", ""⟩]⟩
        (fun _ _ => Except.ok ⟨⟨"b1", "optimizing"⟩⟩) (fun _ => Except.ok ())
      = { effects := [], rejected := none } :=
  ⟨Or.inr (Or.inl rfl),
   (formSubmit_blocks_missing_required ⟨"Ruta AM", "", "Av. X", [⟨"Calle 1", ""⟩]⟩
      (fun _ _ => Except.ok ⟨⟨"b1", "optimizing"⟩⟩) (fun _ => Except.ok ())
      (Or.inr (Or.inl rfl))).1⟩

/-- C6: for a valid draft one submit, through the form or by the handler alone,
issues exactly one network write, the POST to `/delivery-batches/` whose body
carries the name, date and depot address of the draft and its deliveries mapped
to `{address, phone}` in the same order and number; nothing is raised, whether
the request succeeds or fails. -/
theorem valid_draft_posts_once (s : FormState)
    (apiPost : String → PostBody → Except String Response)
    (onSuccess : BatchResource → Except String Unit) (h : validDraft s) :
    formSubmit s apiPost onSuccess = handleSubmit s apiPost onSuccess ∧
      networkWrites (handleSubmit s apiPost onSuccess).effects
        = [("/delivery-batches/",
            { name := s.name
              delivery_date := s.deliveryDate
              depot_address := s.depotAddress
              deliveries := s.deliveries.map (fun d => { address := d.address, phone := d.phone }) })] ∧
      (requestBody s).deliveries.length = s.deliveries.length ∧
      (∀ i (hi : i < s.deliveries.length),
        (requestBody s).deliveries[i]? =
          some { address := s.deliveries[i].address, phone := s.deliveries[i].phone }) ∧
      (handleSubmit s apiPost onSuccess).rejected = none := by
  obtain ⟨hn, hd, hp, _, _⟩ := h
  have hreq : requiredFilled s = true := by
    simp [requiredFilled, hn, hd, hp]
  refine ⟨by simp [formSubmit, hreq], (handleSubmit_writes s apiPost onSuccess).1, ?_, ?_,
    (handleSubmit_writes s apiPost onSuccess).2⟩
  · simp [requestBody, bodyDeliveries]
  · intro i hi
    simp [requestBody, bodyDeliveries, List.getElem?_map, List.getElem?_eq_getElem hi]

/-- C6 at the draft of scenario A, with a server that accepts it. -/
theorem valid_draft_posts_once_witness :
    validDraft ⟨"Ruta AM", "2024-05-01", "Av. X", [⟨"Calle 1", ""⟩]⟩ ∧
    networkWrites
        (handleSubmit ⟨"Ruta AM", "2024-05-01", "Av. X", [⟨"Calle 1", ""⟩]⟩
          (fun _ _ => Except.ok ⟨⟨"b1", "optimizing"⟩⟩) (fun _ => Except.ok ())).effects
      = [("/delivery-batches/",
          { name := "Ruta AM"
            delivery_date := "2024-05-01"
            depot_address := "Av. X"
            deliveries := List.map (fun d : DeliveryRequest =>
              ({ address := d.address, phone := d.phone } : BodyDelivery)) [⟨"Calle 1", ""⟩] })] :=
  have hv : validDraft ⟨"Ruta AM", "2024-05-01", "Av. X", [⟨"Calle 1", ""⟩]⟩ := by
    refine ⟨by decide, by decide, by decide, by simp, ?_⟩
    intro d hd
    simp at hd
    subst hd
    decide
  ⟨hv, (valid_draft_posts_once ⟨"Ruta AM", "2024-05-01", "Av. X", [⟨"Calle 1", ""⟩]⟩
      (fun _ _ => Except.ok ⟨⟨"b1", "optimizing"⟩⟩) (fun _ => Except.ok ()) hv).2.1⟩

/-- C7, as the claim states it, fails: when the request is rejected the handler
logs the error to the console and its promise is fulfilled; nothing reaches the
caller. -/
theorem submission_error_is_swallowed :
    handleSubmit ⟨"Ruta AM", "2024-05-01", "Av. X", [⟨"Calle 1", ""⟩]⟩
        (fun _ _ => Except.error "500 Internal Server Error") (fun _ => Except.ok ())
      = { effects :=
            [Effect.preventDefault,
              Effect.post "/delivery-batches/" ⟨"Ruta AM", "2024-05-01", "Av. X", [⟨"Calle 1", ""⟩]⟩,
              Effect.consoleError "Error creando lote:" "500 Internal Server Error"]
          rejected := none } := by
  decide

/-- C7, amended: when the creation request is rejected the handler logs the
error to the console, does not call `onSuccess` and its promise is fulfilled;
when the request succeeds `onSuccess` is called once, with `response.data`. -/
theorem handleSubmit_outcome (s : FormState)
    (apiPost : String → PostBody → Except String Response)
    (onSuccess : BatchResource → Except String Unit) :
    match apiPost "/delivery-batches/" (requestBody s) with
    | Except.error err =>
      (handleSubmit s apiPost onSuccess).effects
          = [Effect.preventDefault, Effect.post "/delivery-batches/" (requestBody s),
              Effect.consoleError "Error creando lote:" err] ∧
        successCalls (handleSubmit s apiPost onSuccess).effects = [] ∧
        (handleSubmit s apiPost onSuccess).rejected = none
    | Except.ok response =>
      successCalls (handleSubmit s apiPost onSuccess).effects = [response.data] ∧
        (handleSubmit s apiPost onSuccess).rejected = none := by
  cases hp : apiPost "/delivery-batches/" (requestBody s) with
  | error err => simp [handleSubmit, hp, successCalls]
  | ok response =>
    cases hs : onSuccess response.data <;> simp [handleSubmit, hp, hs, successCalls]

/-! ### useOptimizationStatus -/

lemma run_nil (o : Observation) : run o [] = o := rfl

lemma run_cons (o : Observation) (e : Event) (rest : List Event) :
    run o (e :: rest) = run (step o e) rest := rfl

lemma run_append (o : Observation) (xs ys : List Event) :
    run o (xs ++ ys) = run (run o xs) ys := by
  simp [run, List.foldl_append]

lemma step_tick (o : Observation) :
    step o Event.tick = if o.timerActive then pollRequest o else o := rfl

lemma step_settle (o : Observation) (r : FetchResult) :
    step o (Event.settle r) = if 0 < o.inFlight then pollResume o r else o := rfl

lemma step_cleanup (o : Observation) : step o Event.cleanup = cleanup o := rfl

lemma step_unmount (o : Observation) : step o Event.unmount = unmount o := rfl

lemma phase_of_timerActive (o : Observation) (h : o.timerActive = true) :
    o.phase = Phase.registered := by
  cases hph : o.phase <;> simp [Observation.timerActive, hph] at h ⊢

/-- While the interval is registered React applies the setter calls. -/
lemma applySetters_active (o : Observation) (next : HookState) (h : o.timerActive = true) :
    applySetters o next = next := by
  simp [applySetters, phase_of_timerActive o h]

/-- The cleanup clears the interval and touches nothing but the phase. -/
lemma cleanup_frame (o : Observation) :
    (cleanup o).timerActive = false ∧ (cleanup o).fetches = o.fetches ∧
      (cleanup o).batchId = o.batchId ∧ (cleanup o).state = o.state ∧
      (cleanup o).inFlight = o.inFlight ∧ (cleanup o).calls = o.calls := by
  cases hph : o.phase <;> simp [cleanup, hph, Observation.timerActive]

/-- Removing the component leaves the interval as it was and touches nothing
but the phase. -/
lemma unmount_frame (o : Observation) :
    (unmount o).timerActive = o.timerActive ∧ (unmount o).fetches = o.fetches ∧
      (unmount o).batchId = o.batchId ∧ (unmount o).state = o.state ∧
      (unmount o).inFlight = o.inFlight ∧ (unmount o).calls = o.calls := by
  cases hph : o.phase <;> simp [unmount, hph, Observation.timerActive]

/-- The second half of `poll` touches the two state cells and the count of
outstanding requests, nothing else. -/
lemma pollResume_frame (o : Observation) (r : FetchResult) :
    (pollResume o r).batchId = o.batchId ∧ (pollResume o r).timerActive = o.timerActive ∧
      (pollResume o r).fetches = o.fetches ∧ (pollResume o r).inFlight = o.inFlight - 1 := by
  cases r with
  | fulfilled status => simp only [pollResume]; split <;> simp [Observation.timerActive]
  | rejected => simp [pollResume, Observation.timerActive]

lemma applySetters_loading_false (o : Observation) (next : HookState)
    (h : o.state.loading = false) (hn : next.loading = false) :
    (applySetters o next).loading = false := by
  cases hph : o.phase <;> simp [applySetters, hph, h, hn]

lemma pollResume_loading_false (o : Observation) (r : FetchResult) (h : o.state.loading = false) :
    (pollResume o r).state.loading = false := by
  cases r with
  | fulfilled status =>
    simp only [pollResume]
    split
    · exact applySetters_loading_false o _ h rfl
    · exact applySetters_loading_false o _ h h
  | rejected => exact applySetters_loading_false o _ h rfl

/-- No event changes the batch the observation is about. -/
lemma step_batchId (o : Observation) (e : Event) : (step o e).batchId = o.batchId := by
  cases e with
  | tick => rw [step_tick]; split <;> simp [pollRequest]
  | settle r =>
    rw [step_settle]
    split
    · exact (pollResume_frame o r).1
    · rfl
  | cleanup => exact (cleanup_frame o).2.2.1
  | unmount => exact (unmount_frame o).2.2.1

lemma run_batchId (events : List Event) : ∀ o : Observation, (run o events).batchId = o.batchId := by
  induction events with
  | nil => intro o; rfl
  | cons e rest ih => intro o; rw [run_cons, ih, step_batchId]

/-- Only the cleanup clears the interval. -/
lemma step_timerActive (o : Observation) (e : Event) (h : e ≠ Event.cleanup) :
    (step o e).timerActive = o.timerActive := by
  cases e with
  | tick => rw [step_tick]; split <;> simp [pollRequest, Observation.timerActive]
  | settle r =>
    rw [step_settle]
    split
    · exact (pollResume_frame o r).2.1
    · rfl
  | cleanup => exact absurd rfl h
  | unmount => exact (unmount_frame o).1

lemma run_timerActive (events : List Event) :
    ∀ o : Observation, Event.cleanup ∉ events → (run o events).timerActive = o.timerActive := by
  induction events with
  | nil => intro o _; rfl
  | cons e rest ih =>
    intro o h
    have he : e ≠ Event.cleanup := fun heq => h (by simp [heq])
    have hrest : Event.cleanup ∉ rest := fun hmem => h (List.mem_cons_of_mem _ hmem)
    rw [run_cons, ih _ hrest, step_timerActive o e he]

/-- With the interval cleared no event issues a request, and the interval stays
cleared. -/
lemma step_cleared (o : Observation) (e : Event) (h : o.timerActive = false) :
    (step o e).timerActive = false ∧ (step o e).fetches = o.fetches := by
  cases e with
  | tick => simp [step, h]
  | settle r =>
    rw [step_settle]
    split
    · exact ⟨(pollResume_frame o r).2.1.trans h, (pollResume_frame o r).2.2.1⟩
    · exact ⟨h, rfl⟩
  | cleanup => exact ⟨(cleanup_frame o).1, (cleanup_frame o).2.1⟩
  | unmount => exact ⟨(unmount_frame o).1.trans h, (unmount_frame o).2.1⟩

lemma run_cleared (events : List Event) :
    ∀ o : Observation, o.timerActive = false → (run o events).fetches = o.fetches := by
  induction events with
  | nil => intro o _; rfl
  | cons e rest ih =>
    intro o h
    rw [run_cons, ih _ (step_cleared o e h).1, (step_cleared o e h).2]

/-- No event sets `loading` back to `true`. -/
lemma step_loading_false (o : Observation) (e : Event) (h : o.state.loading = false) :
    (step o e).state.loading = false := by
  cases e with
  | tick => rw [step_tick]; split <;> simp [pollRequest, h]
  | settle r =>
    rw [step_settle]
    split
    · exact pollResume_loading_false o r h
    · exact h
  | cleanup => rw [step_cleanup, (cleanup_frame o).2.2.2.1]; exact h
  | unmount => rw [step_unmount, (unmount_frame o).2.2.2.1]; exact h

lemma run_loading_false (events : List Event) :
    ∀ o : Observation, o.state.loading = false → (run o events).state.loading = false := by
  induction events with
  | nil => intro o h; exact h
  | cons e rest ih => intro o h; rw [run_cons]; exact ih _ (step_loading_false o e h)

/-- A tick with the interval registered issues a request, whatever the state. -/
lemma step_tick_active (o : Observation) (h : o.timerActive = true) :
    step o Event.tick = pollRequest o := by
  simp [step, h]


lemma pollResume_fulfilled_status (o : Observation) (status : String)
    (h : o.phase ≠ Phase.unmounted) :
    (pollResume o (FetchResult.fulfilled status)).state.status = status := by
  cases hph : o.phase with
  | unmounted => exact absurd hph h
  | registered => simp only [pollResume]; split <;> simp [applySetters, hph]
  | cleared => simp only [pollResume]; split <;> simp [applySetters, hph]

/-- The setter calls the second half of `poll` makes, in any phase. -/
lemma pollResume_calls (o : Observation) (r : FetchResult) :
    (pollResume o r).calls = o.calls ++
      (match r with
        | FetchResult.fulfilled status =>
          SetterCall.setStatus status ::
            (if status = "ready" ∨ status = "failed" then [SetterCall.setLoading false] else [])
        | FetchResult.rejected => [SetterCall.setLoading false]) := by
  cases r with
  | fulfilled status => simp only [pollResume]; split <;> simp [*]
  | rejected => simp [pollResume]

/-- C2, as the claim states it, fails: after a fetch has succeeded with `ready`
the next tick fetches again, and a later answer `optimizing` replaces the
reported status. -/
theorem polling_goes_on_after_ready :
    (run (useOptimizationStatus "b1" 3000)
        [Event.tick, Event.settle (FetchResult.fulfilled "ready")]).state
      = { status := "ready", loading := false } ∧
    (run (useOptimizationStatus "b1" 3000)
        [Event.tick, Event.settle (FetchResult.fulfilled "ready"), Event.tick]).fetches
      = ["/delivery-batches/b1/", "/delivery-batches/b1/"] ∧
    (run (useOptimizationStatus "b1" 3000)
        [Event.tick, Event.settle (FetchResult.fulfilled "ready"), Event.tick,
          Event.settle (FetchResult.fulfilled "optimizing")]).state
      = { status := "optimizing", loading := false } := by
  refine ⟨by decide, by decide, by decide⟩

/-- C2, amended: when a fetch succeeds with `ready` or `failed` the hook reports
that status with `loading = false`, and the interval keeps running: after any
later events without a cleanup the next tick issues one more fetch of the same
URL, and the status that fetch answers with becomes the reported status. -/
theorem terminal_reported_polling_continues (o : Observation) (status : String)
    (later : List Event) (next : String)
    (hterm : status = "ready" ∨ status = "failed") (hfl : 0 < o.inFlight)
    (hact : o.timerActive = true) (hno : Event.cleanup ∉ later) :
    (step o (Event.settle (FetchResult.fulfilled status))).state
        = { status := status, loading := false } ∧
      (run (step o (Event.settle (FetchResult.fulfilled status))) (later ++ [Event.tick])).fetches
        = (run (step o (Event.settle (FetchResult.fulfilled status))) later).fetches
            ++ [statusUrl o.batchId] ∧
      (run (step o (Event.settle (FetchResult.fulfilled status)))
          (later ++ [Event.tick, Event.settle (FetchResult.fulfilled next)])).state.status
        = next := by
  have hstep : step o (Event.settle (FetchResult.fulfilled status))
      = pollResume o (FetchResult.fulfilled status) := by
    rw [step_settle, if_pos hfl]
  have hactive : (run (step o (Event.settle (FetchResult.fulfilled status))) later).timerActive
      = true := by
    rw [run_timerActive later _ hno, hstep, (pollResume_frame o _).2.1, hact]
  have hid : (run (step o (Event.settle (FetchResult.fulfilled status))) later).batchId
      = o.batchId := by
    rw [run_batchId, step_batchId]
  refine ⟨?_, ?_, ?_⟩
  · rw [hstep]
    simp [pollResume, hterm, applySetters_active o _ hact]
  · rw [run_append, run_cons, run_nil, step_tick_active _ hactive]
    simp [pollRequest, hid]
  · rw [run_append, run_cons, run_cons, run_nil, step_tick_active _ hactive, step_settle,
      if_pos (by simp [pollRequest])]
    apply pollResume_fulfilled_status _ next
    show (run (step o (Event.settle (FetchResult.fulfilled status))) later).phase
      ≠ Phase.unmounted
    rw [phase_of_timerActive _ hactive]
    decide

/-- C2, amended, at the observation of batch `b1` with one fetch outstanding. -/
theorem terminal_reported_polling_continues_witness :
    (("ready" : String) = "ready" ∨ ("ready" : String) = "failed") ∧
    0 < (step (useOptimizationStatus "b1" 3000) Event.tick).inFlight ∧
    (step (useOptimizationStatus "b1" 3000) Event.tick).timerActive = true ∧
    Event.cleanup ∉ [Event.tick, Event.settle FetchResult.rejected] ∧
    (run (step (step (useOptimizationStatus "b1" 3000) Event.tick)
          (Event.settle (FetchResult.fulfilled "ready")))
        ([Event.tick, Event.settle FetchResult.rejected]
          ++ [Event.tick, Event.settle (FetchResult.fulfilled "optimizing")])).state.status
      = "optimizing" :=
  ⟨Or.inl rfl, by decide, by decide, by decide,
   (terminal_reported_polling_continues (step (useOptimizationStatus "b1" 3000) Event.tick)
      "ready" [Event.tick, Event.settle FetchResult.rejected] "optimizing"
      (Or.inl rfl) (by decide) (by decide) (by decide)).2.2⟩

/-- C4, as the claim states it, fails: a fetch in flight when the cleanup runs
is not discarded. When it completes after the cleanup, `poll` still calls
`setStatus('ready')` and `setLoading(false)`, also when the component has been
removed in between. -/
theorem update_delivered_after_cleanup :
    (run (useOptimizationStatus "b1" 3000) [Event.tick, Event.cleanup]).calls = [] ∧
    (run (useOptimizationStatus "b1" 3000)
        [Event.tick, Event.cleanup, Event.settle (FetchResult.fulfilled "ready")]).calls
      = [SetterCall.setStatus "ready", SetterCall.setLoading false] ∧
    (run (useOptimizationStatus "b1" 3000)
        [Event.tick, Event.cleanup, Event.unmount,
          Event.settle (FetchResult.fulfilled "ready")]).calls
      = [SetterCall.setStatus "ready", SetterCall.setLoading false] := by
  refine ⟨by decide, by decide, by decide⟩

/-- C4, amended: after the cleanup no fetch is started, whatever happens later
and whether or not a fetch is outstanding. A fetch that was in flight when the
cleanup ran is not discarded: when it succeeds `setStatus` is called with its
status (and `setLoading(false)` for `ready` and `failed`), when it fails
`setLoading(false)` is called, also after the component has been removed. The
reported status follows the call while the component is still mounted and is
left as it was once the component has been removed. -/
theorem cleanup_stops_fetches_not_updates (o : Observation) (later : List Event)
    (status : String) :
    (run (step o Event.cleanup) later).fetches = o.fetches ∧
      (0 < o.inFlight →
        (step (step o Event.cleanup) (Event.settle (FetchResult.fulfilled status))).calls
          = o.calls ++ SetterCall.setStatus status ::
              (if status = "ready" ∨ status = "failed" then [SetterCall.setLoading false]
                else []) ∧
        (step (step o Event.cleanup) (Event.settle FetchResult.rejected)).calls
          = o.calls ++ [SetterCall.setLoading false] ∧
        (step (step (step o Event.cleanup) Event.unmount)
            (Event.settle (FetchResult.fulfilled status))).calls
          = o.calls ++ SetterCall.setStatus status ::
              (if status = "ready" ∨ status = "failed" then [SetterCall.setLoading false]
                else []) ∧
        (step (step (step o Event.cleanup) Event.unmount)
            (Event.settle FetchResult.rejected)).calls
          = o.calls ++ [SetterCall.setLoading false]) ∧
      (0 < o.inFlight → o.timerActive = true →
        (step (step o Event.cleanup)
            (Event.settle (FetchResult.fulfilled status))).state.status = status ∧
        (step (step (step o Event.cleanup) Event.unmount)
            (Event.settle (FetchResult.fulfilled status))).state = o.state ∧
        (step (step (step o Event.cleanup) Event.unmount)
            (Event.settle FetchResult.rejected)).state = o.state) := by
  have hc := cleanup_frame o
  have hu := unmount_frame (cleanup o)
  refine ⟨?_, ?_, ?_⟩
  · rw [step_cleanup, run_cleared later (cleanup o) hc.1, hc.2.1]
  · intro hfl
    have h1 : 0 < (cleanup o).inFlight := by rw [hc.2.2.2.2.1]; exact hfl
    have h2 : 0 < (unmount (cleanup o)).inFlight := by rw [hu.2.2.2.2.1]; exact h1
    simp only [step_cleanup, step_unmount, step_settle, if_pos h1, if_pos h2, pollResume_calls,
      hu.2.2.2.2.2, hc.2.2.2.2.2, and_self]
  · intro hfl hact
    have h1 : 0 < (cleanup o).inFlight := by rw [hc.2.2.2.2.1]; exact hfl
    have h2 : 0 < (unmount (cleanup o)).inFlight := by rw [hu.2.2.2.2.1]; exact h1
    have hreg : o.phase = Phase.registered := phase_of_timerActive o hact
    have hcl : (cleanup o).phase = Phase.cleared := by simp [cleanup, hreg]
    have hun : (unmount (cleanup o)).phase = Phase.unmounted := by simp [unmount, hcl]
    have hdrop : ∀ next, applySetters (unmount (cleanup o)) next = o.state := by
      intro next
      simp only [applySetters, hun, hu.2.2.2.1, hc.2.2.2.1]
    simp only [step_cleanup, step_unmount, step_settle, if_pos h1, if_pos h2]
    refine ⟨pollResume_fulfilled_status _ status (by rw [hcl]; decide), ?_, ?_⟩
    · simp only [pollResume]
      split <;> exact hdrop _
    · exact hdrop _

/-- C4, amended, at the observation of batch `b1`: cancelled after its first
poll was answered `optimizing` and before the second tick, no fetch follows;
cancelled with a fetch in flight, the answer `failed` still reaches the
setters. -/
theorem cleanup_stops_fetches_not_updates_witness :
    (run (step (run (useOptimizationStatus "b1" 3000)
          [Event.tick, Event.settle (FetchResult.fulfilled "optimizing")]) Event.cleanup)
        [Event.tick, Event.tick]).fetches = ["/delivery-batches/b1/"] ∧
    0 < (step (useOptimizationStatus "b1" 3000) Event.tick).inFlight ∧
    (step (useOptimizationStatus "b1" 3000) Event.tick).timerActive = true ∧
    (step (step (step (useOptimizationStatus "b1" 3000) Event.tick) Event.cleanup)
        (Event.settle (FetchResult.fulfilled "failed"))).calls
      = (step (useOptimizationStatus "b1" 3000) Event.tick).calls
          ++ SetterCall.setStatus "failed" ::
            (if ("failed" : String) = "ready" ∨ ("failed" : String) = "failed"
              then [SetterCall.setLoading false] else []) ∧
    (step (step (step (step (useOptimizationStatus "b1" 3000) Event.tick) Event.cleanup)
        Event.unmount) (Event.settle (FetchResult.fulfilled "failed"))).state
      = (step (useOptimizationStatus "b1" 3000) Event.tick).state :=
  ⟨(cleanup_stops_fetches_not_updates
      (run (useOptimizationStatus "b1" 3000)
        [Event.tick, Event.settle (FetchResult.fulfilled "optimizing")])
      [Event.tick, Event.tick] "failed").1,
   by decide, by decide,
   ((cleanup_stops_fetches_not_updates (step (useOptimizationStatus "b1" 3000) Event.tick)
      [] "failed").2.1 (by decide)).1,
   ((cleanup_stops_fetches_not_updates (step (useOptimizationStatus "b1" 3000) Event.tick)
      [] "failed").2.2 (by decide) (by decide)).2.1⟩

/-- C5, as the claim states it, fails: after a failed fetch the hook reports
`loading = false`, while the status is still `optimizing`. -/
theorem failed_fetch_ends_loading :
    (run (useOptimizationStatus "b1" 3000) [Event.tick]).state
      = { status := "optimizing", loading := true } ∧
    (run (useOptimizationStatus "b1" 3000) [Event.tick, Event.settle FetchResult.rejected]).state
      = { status := "optimizing", loading := false } := by
  refine ⟨by decide, by decide⟩

/-- C5, amended: a failed fetch leaves the reported status as it was and sets
`loading` to `false`, where it stays whatever happens later; the interval is
untouched, so after any later events without a cleanup the next tick fetches
again. -/
theorem failed_fetch_keeps_status_and_polling (o : Observation) (later : List Event)
    (hfl : 0 < o.inFlight) (hact : o.timerActive = true) (hno : Event.cleanup ∉ later) :
    (step o (Event.settle FetchResult.rejected)).state.status = o.state.status ∧
      (step o (Event.settle FetchResult.rejected)).state.loading = false ∧
      (run (step o (Event.settle FetchResult.rejected)) later).state.loading = false ∧
      (step o (Event.settle FetchResult.rejected)).timerActive = true ∧
      (run (step o (Event.settle FetchResult.rejected)) (later ++ [Event.tick])).fetches
        = (run (step o (Event.settle FetchResult.rejected)) later).fetches
            ++ [statusUrl o.batchId] := by
  have hstep : step o (Event.settle FetchResult.rejected) = pollResume o FetchResult.rejected := by
    rw [step_settle, if_pos hfl]
  have hload : (step o (Event.settle FetchResult.rejected)).state.loading = false := by
    rw [hstep]; simp [pollResume, applySetters_active o _ hact]
  have hactive : (run (step o (Event.settle FetchResult.rejected)) later).timerActive = true := by
    rw [run_timerActive later _ hno, hstep, (pollResume_frame o _).2.1, hact]
  have hid : (run (step o (Event.settle FetchResult.rejected)) later).batchId = o.batchId := by
    rw [run_batchId, step_batchId]
  refine ⟨?_, hload, run_loading_false later _ hload, ?_, ?_⟩
  · rw [hstep]; simp [pollResume, applySetters_active o _ hact]
  · rw [hstep, (pollResume_frame o _).2.1, hact]
  · rw [run_append, run_cons, run_nil, step_tick_active _ hactive]
    simp [pollRequest, hid]

/-- C5, amended, at the observation of batch `b1` whose first fetch fails. -/
theorem failed_fetch_keeps_status_and_polling_witness :
    0 < (step (useOptimizationStatus "b1" 3000) Event.tick).inFlight ∧
    (step (useOptimizationStatus "b1" 3000) Event.tick).timerActive = true ∧
    Event.cleanup ∉ [Event.tick, Event.settle (FetchResult.fulfilled "optimizing")] ∧
    (run (step (step (useOptimizationStatus "b1" 3000) Event.tick)
          (Event.settle FetchResult.rejected))
        [Event.tick, Event.settle (FetchResult.fulfilled "optimizing")]).state.loading = false :=
  ⟨by decide, by decide, by decide,
   (failed_fetch_keeps_status_and_polling (step (useOptimizationStatus "b1" 3000) Event.tick)
      [Event.tick, Event.settle (FetchResult.fulfilled "optimizing")]
      (by decide) (by decide) (by decide)).2.2.1⟩

/-- C9, as the claim states it, fails: two ticks with no completion in between
leave two fetches in flight. -/
theorem two_fetches_in_flight :
    (run (useOptimizationStatus "b1" 3000) [Event.tick, Event.tick]).inFlight = 2 ∧
    (run (useOptimizationStatus "b1" 3000) [Event.tick, Event.tick]).fetches
      = ["/delivery-batches/b1/", "/delivery-batches/b1/"] := by
  refine ⟨by decide, by decide⟩

/-- C9, amended: while the interval is registered every tick starts a new fetch,
also when earlier fetches are still outstanding: `n` ticks with no completion
in between add `n` fetches in flight. -/
theorem ticks_stack_fetches (n : Nat) (o : Observation) (hact : o.timerActive = true) :
    (run o (List.replicate n Event.tick)).inFlight = o.inFlight + n ∧
      (run o (List.replicate n Event.tick)).fetches
        = o.fetches ++ List.replicate n (statusUrl o.batchId) := by
  induction n generalizing o with
  | zero => simp [run_nil]
  | succ k ih =>
    have hnext : (pollRequest o).timerActive = true := hact
    rw [List.replicate_succ, run_cons, step_tick_active o hact]
    obtain ⟨h1, h2⟩ := ih (pollRequest o) hnext
    refine ⟨?_, ?_⟩
    · rw [h1]; simp [pollRequest]; omega
    · rw [h2]; simp [pollRequest, List.replicate_succ]

/-- C9, amended, at three ticks of a fresh observation of batch `b1`. -/
theorem ticks_stack_fetches_witness :
    (useOptimizationStatus "b1" 3000).timerActive = true ∧
    (run (useOptimizationStatus "b1" 3000) (List.replicate 3 Event.tick)).inFlight
      = (useOptimizationStatus "b1" 3000).inFlight + 3 :=
  ⟨rfl, (ticks_stack_fetches 3 (useOptimizationStatus "b1" 3000) rfl).1⟩

end RutasRD
